import Mathlib

set_option maxHeartbeats 1000000

namespace HuskyAI

/-!
Shallow embedding of the HuskyAI-Reverse connection-multiplexing core:
`src/websocket_manager.py` (WebSocketManager: listeners registry, message
router, listen loop), `src/manager.py` (BaseManager.wait_for_response),
`src/request_manager.py` (RequestManager.process_request / handle_request),
`src/stream_manager.py` (StreamManager.generate_stream) and
`src/authentication_manager.py` (AuthenticationManager.authenticate_wallet).

Inbound frames are JSON objects; we embed a decoded frame as a record of the
optional fields the code reads (`data.get(...)`). An undecodable frame is
`Option.none` at the router's entry. `asyncio.Queue` is embedded as a FIFO
list of items plus its `maxsize` (0 meaning unbounded, as in asyncio, where
`Queue.full()` is true only when `0 < maxsize ≤ qsize`). Queue objects are
heap-allocated in Python and shared by alias between `WebSocketManager.listeners`
and `BaseManager.queues`; we keep that identity by storing queues in a heap
indexed by numeric ids and letting both maps hold ids.
-/

/-- Decoded inbound JSON frame: the fields that the routing and consumer code
reads via `data.get(...)`. A missing key is `none`. -/
structure InboundData where
  requestId : Option String := none
  code : Option Nat := none
  response : Option String := none
  message : Option String := none
  chunk : Option String := none
  tokens_burned : Option Nat := none
  isStreamEnd : Option Bool := none
deriving Repr, DecidableEq

/-- An `asyncio.Queue`: FIFO contents plus `maxsize` (0 = unbounded, the
default of `asyncio.Queue()`). -/
structure Queue where
  maxsize : Nat
  items : List InboundData
deriving Repr, DecidableEq

/-- `asyncio.Queue.full()`: true iff `maxsize > 0` and `qsize() >= maxsize`. -/
def Queue.isFull (q : Queue) : Bool :=
  decide (0 < q.maxsize) && decide (q.maxsize ≤ q.items.length)

/-- `asyncio.Queue.put_nowait(item)`: appends at the back, or raises
`QueueFull` (here: `none`) when the queue is full. -/
def Queue.put_nowait (q : Queue) (m : InboundData) : Option Queue :=
  if q.isFull then none else some { q with items := q.items ++ [m] }

/-- Routing-relevant state of `WebSocketManager`: the `listeners` and
`stream_queues` dicts map a request id to a queue (held by id into the
`queuesHeap`, preserving Python object identity), and `nextQ` is the next
fresh heap id. -/
structure WSState where
  listeners : List (String × Nat)
  stream_queues : List (String × Nat)
  queuesHeap : List (Nat × Queue)
  nextQ : Nat
deriving Repr, DecidableEq

/-- Fresh `WebSocketManager` state: both dicts empty. -/
def emptyWS : WSState :=
  { listeners := [], stream_queues := [], queuesHeap := [], nextQ := 0 }

/-- Update the queue stored at heap id `qid`. -/
def heapSet (h : List (Nat × Queue)) (qid : Nat) (q : Queue) : List (Nat × Queue) :=
  h.map fun p => if p.1 == qid then (qid, q) else p

/-- `WebSocketManager.register_listener` (src/websocket_manager.py:190-204):
returns the existing queue for `request_id` if present, otherwise allocates a
fresh `asyncio.Queue()` (maxsize 0) and stores it under `request_id`. Returns
the (possibly unchanged) state and the heap id of the returned queue. -/
def register_listener (s : WSState) (request_id : String) : WSState × Nat :=
  match s.listeners.lookup request_id with
  | some qid => (s, qid)
  | none =>
      let qid := s.nextQ
      ({ s with
          listeners := s.listeners ++ [(request_id, qid)]
          queuesHeap := s.queuesHeap ++ [(qid, { maxsize := 0, items := [] })]
          nextQ := s.nextQ + 1 }, qid)

/-- `WebSocketManager.unregister_listener` (src/websocket_manager.py:206-209):
deletes the entry if `request_id in self.listeners`, otherwise does nothing. -/
def unregister_listener (s : WSState) (request_id : String) : WSState :=
  if (s.listeners.lookup request_id).isSome then
    { s with listeners := s.listeners.eraseP (fun p => p.1 == request_id) }
  else s

/-- The empty string (named, for readability at use sites). -/
def emptyS : String := ""

/-- Outcome of `WebSocketManager._route_message` on one raw frame; every
`dropped*` constructor corresponds to a logged early `return`. -/
inductive RouteResult
  | droppedBadJson
  | droppedNoRequestId
  | droppedNoQueue
  | droppedQueueFull
  | delivered (qid : Nat)
deriving Repr, DecidableEq

/-- Python truthiness of the `requestId` value: `if not request_id` is taken
when the key is missing or the value is the empty string. -/
def falsyId : Option String → Bool
  | none => true
  | some v => v == ""

/-- `WebSocketManager._route_message` (src/websocket_manager.py:129-188).
The input is the result of `json.loads`: `none` for undecodable JSON (the
`JSONDecodeError` handler logs and returns). A frame without a truthy
`requestId` is logged and dropped. The queue is looked up first in
`listeners`, then in `stream_queues`; if absent in both, the code logs
"No queue found" and returns without creating a queue. A present queue gets a
`put_nowait`; `QueueFull` is caught, logged and dropped. After a successful
put of a frame whose `isStreamEnd` is truthy, the id is unregistered.
(The UTF-8 re-encoding of `data["response"]` is the identity on our string
model and is omitted.) -/
def route_message (s : WSState) (msg : Option InboundData) : WSState × RouteResult :=
  match msg with
  | none => (s, .droppedBadJson)
  | some data =>
    if falsyId data.requestId then (s, .droppedNoRequestId)
    else
      let rid := data.requestId.getD emptyS
      let qidOpt :=
        match s.listeners.lookup rid with
        | some qid => some qid
        | none => s.stream_queues.lookup rid
      match qidOpt with
      | none => (s, .droppedNoQueue)
      | some qid =>
        match s.queuesHeap.lookup qid with
        | none => (s, .droppedNoQueue)
        | some q =>
          match q.put_nowait data with
          | none => (s, .droppedQueueFull)
          | some q2 =>
            let s2 := { s with queuesHeap := heapSet s.queuesHeap qid q2 }
            if data.isStreamEnd.getD false then
              (unregister_listener s2 rid, .delivered qid)
            else (s2, .delivered qid)

/-!
Operation traces. For the temporal claim about the order of registration and
sending we read the statement order off the three request-issuing methods and
record it as a list of abstract events.
-/

/-- Externally visible steps of a request-issuing method, in program order. -/
inductive CoreEvent
  | registerEvt (request_id : String)
  | sendFrame (request_id : String)
  | awaitDelivery (request_id : String)
  | unregisterEvt (request_id : String)
deriving Repr, DecidableEq

/-- Statement order of `RequestManager.process_request`
(src/request_manager.py:34-46): `create_request` (→ `create_queue` →
`register_listener`), then `ws_manager.send`, then `wait_for_response`. -/
def process_request_events (request_id : String) : List CoreEvent :=
  [.registerEvt request_id, .sendFrame request_id, .awaitDelivery request_id]

/-- Statement order of `StreamManager.process_stream`
(src/stream_manager.py:39-54): `create_stream` (→ `create_queue` →
`register_listener`), then `ws_manager.send`, then the streaming response. -/
def process_stream_events (request_id : String) : List CoreEvent :=
  [.registerEvt request_id, .sendFrame request_id, .awaitDelivery request_id]

/-- Statement order of `AuthenticationManager.authenticate_wallet`
(src/authentication_manager.py:15-34): it first awaits
`ws_manager.send(json.dumps(auth_request), ...)` and only afterwards calls
`ws_manager.register_listener(auth_request["requestId"])`, then waits on the
queue, and unregisters in the `finally`. -/
def authenticate_wallet_events (request_id : String) : List CoreEvent :=
  [.sendFrame request_id, .registerEvt request_id, .awaitDelivery request_id,
   .unregisterEvt request_id]

/-- Position of the first occurrence of an event in a trace (length if
absent). -/
def evtIdx (l : List CoreEvent) (e : CoreEvent) : Nat :=
  l.findIdx fun x => decide (x = e)

/-- The registration of `request_id` happens strictly before the outbound
frame for it is sent. -/
def registerBeforeSend (l : List CoreEvent) (request_id : String) : Bool :=
  decide (evtIdx l (.registerEvt request_id) < evtIdx l (.sendFrame request_id))

/-!
The receive loop `WebSocketManager._listen` (src/websocket_manager.py:37-80).
Each iteration of the `while self.running` loop interacts with the
environment: if there is no connection it first attempts `connect()`; with a
connection it awaits `recv()`, which can return a frame or raise. We embed
one iteration as a function of the current state and an environment step
describing what `connect()` and `recv()` would do, and the loop as a fold
that stops when `running` becomes false or the body breaks.
-/

/-- Mutable state of the listener that the loop reads and writes:
`self.running`, whether `self.connection` is set, and `self.current_retry`. -/
structure ListenState where
  running : Bool
  hasConn : Bool
  current_retry : Nat
deriving Repr, DecidableEq

/-- What `await self.connection.recv()` (plus routing) does in one iteration. -/
inductive RecvOutcome
  | gotMessage
  | connClosed
  | cancelled
  | otherError
deriving Repr, DecidableEq

/-- Environment behaviour available to one loop iteration: the result
`connect()` would return if attempted, and the outcome `recv()` would have if
attempted. -/
structure EnvStep where
  connectOk : Bool
  recv : RecvOutcome
deriving Repr, DecidableEq

/-- Whether the iteration fell through to the next `while` test (`continue`
or normal end) or left the loop (`break`). -/
inductive IterExit
  | continued
  | broke
deriving Repr, DecidableEq

/-- The part of the loop body from `message = await self.connection.recv()`
on, given that a connection is present (src/websocket_manager.py:48-77):
a routed message resets `current_retry` to 0; `ConnectionClosed` /
`ConnectionClosedError` run `await self.close()` — which sets
`self.running = False` and `self.connection = None`
(src/websocket_manager.py:101-112) — and `continue`; `CancelledError`
breaks; any other exception increments `current_retry` and breaks when it
has reached `max_retries`, otherwise sleeps `reconnect_delay` and continues. -/
def recvStep (max_retries : Nat) (s : ListenState) :
    RecvOutcome → ListenState × IterExit
  | .gotMessage => ({ s with current_retry := 0 }, .continued)
  | .connClosed => ({ s with running := false, hasConn := false }, .continued)
  | .cancelled => (s, .broke)
  | .otherError =>
      let r := s.current_retry + 1
      if max_retries ≤ r then ({ s with current_retry := r }, .broke)
      else ({ s with current_retry := r }, .continued)

/-- One iteration of the body of `while self.running` in `_listen`
(src/websocket_manager.py:39-77), entered with `s.running = true`. Without a
connection the body first calls `connect()`: on failure it logs, sleeps
`reconnect_delay` and continues — note `current_retry` is NOT incremented on
this path — and on success (`connect()` resets `current_retry` to 0 and sets
the connection) it falls through to `recv()` in the same iteration. -/
def listenIter (max_retries : Nat) (s : ListenState) (e : EnvStep) :
    ListenState × IterExit :=
  if s.hasConn then recvStep max_retries s e.recv
  else if e.connectOk then
    recvStep max_retries { s with hasConn := true, current_retry := 0 } e.recv
  else (s, .continued)

/-- Run `_listen` against a finite schedule of environment steps: the `while
self.running` test guards each iteration, a `break` leaves the loop, and the
line after the loop sets `self.running = False`
(src/websocket_manager.py:80). When the schedule is exhausted the current
state is returned (the loop is still live in that case). -/
def listenRun (max_retries : Nat) : ListenState → List EnvStep → ListenState
  | s, [] => s
  | s, e :: es =>
      if s.running then
        match listenIter max_retries s e with
        | (s2, .continued) => listenRun max_retries s2 es
        | (s2, .broke) => { s2 with running := false }
      else { s with running := false }

/-- `WS_CONFIG['max_retries']` (src/websocket_manager.py:9-12). -/
def max_retriesV : Nat := 5

/-!
`BaseManager` (src/manager.py) and `RequestManager` (src/request_manager.py).
`BaseManager.queues` is a second dict from request id to the same queue
objects (aliases, hence heap ids). `wait_for_response` races `queue.get()`
against `asyncio.sleep(timeout)`; we embed the outcome of that race as an
input: `some m` when the delivery branch won with message `m`, `none` when
the timeout branch won.
-/

/-- State visible to a `BaseManager` subclass: its own `queues` dict plus the
shared `WebSocketManager` state. -/
structure MgrState where
  ws : WSState
  queues : List (String × Nat)
deriving Repr, DecidableEq

/-- Fresh manager over a fresh `WebSocketManager`. -/
def emptyMgr : MgrState := { ws := emptyWS, queues := [] }

/-- Python dict assignment `d[k] = v` on an insertion-ordered assoc list:
overwrite in place if the key exists, else append. -/
def dictSet (l : List (String × Nat)) (k : String) (v : Nat) :
    List (String × Nat) :=
  if (l.lookup k).isSome then l.map (fun p => if p.1 == k then (k, v) else p)
  else l ++ [(k, v)]

/-- `BaseManager.create_queue` (src/manager.py:13-18): registers the listener
with the `WebSocketManager` and stores the returned queue in `self.queues`. -/
def create_queue (s : MgrState) (request_id : String) : MgrState :=
  let (ws2, qid) := register_listener s.ws request_id
  { ws := ws2, queues := dictSet s.queues request_id qid }

/-- A Python exception as it escapes the embedded code: an
`HTTPException(status_code, detail)` or a `NameError` on an unbound name. -/
inductive PyError
  | http (status : Nat) (detail : String)
  | nameError (n : String)
deriving Repr, DecidableEq

/-- Result of `BaseManager.wait_for_response`: the returned response dict, or
the exception it raised. -/
inductive WaitResult
  | success (m : InboundData)
  | err (e : PyError)
deriving Repr, DecidableEq

/-- Detail text of the 404 raised by `wait_for_response`. -/
def needle404 : String := "Request not found: "

/-- Detail text of the 408 raised by `wait_for_response`. -/
def needle408 : String := "Request timeout: "

/-- Default error text `"Unknown error"` used by `wait_for_response` and
`process_request`. -/
def unknownErrS : String := "Unknown error"

/-- The unbound identifier referenced by `RequestManager.handle_request` and
`RequestManager.process_request`'s `except` handler — `background_tasks`. -/
def backgroundTasksName : String := "background_tasks"

/-- `BaseManager.wait_for_response` (src/manager.py:27-89). If `request_id`
is not in `self.queues` it raises `HTTPException(404, ...)` (the outer
`except` then finds the id absent and re-raises; no state change). Otherwise
it races the delivery against the timeout (`raceOutcome`): a delivered
response with `code == 200` is returned; a delivered response that is falsy
or has another code raises `HTTPException(500, response.get("message",
"Unknown error"))`; a timeout raises `HTTPException(408, ...)`. The `finally`
cancels the losing task and runs `del self.queues[request_id]` once; the
outer `except` re-checks membership (already gone) and re-raises, so the
deletion happens exactly once. Note: neither path calls
`ws_manager.unregister_listener`, so `ws.listeners` is untouched. -/
def wait_for_response (s : MgrState) (request_id : String)
    (raceOutcome : Option InboundData) : MgrState × WaitResult :=
  match s.queues.lookup request_id with
  | none => (s, .err (.http 404 (String.append needle404 request_id)))
  | some _ =>
      let result : WaitResult :=
        match raceOutcome with
        | some response =>
            if response.code == some 200 then .success response
            else .err (.http 500 (response.message.getD unknownErrS))
        | none => .err (.http 408 (String.append needle408 request_id))
      let s2 : MgrState :=
        { s with queues := s.queues.eraseP (fun p => p.1 == request_id) }
      (s2, result)

/-- The JSON body built by `RequestManager.process_request` on success
(src/request_manager.py:50-66): an OpenAI-style chat completion. -/
structure ChatCompletion where
  id : String
  created : Nat
  model : String
  content : String
  prompt_tokens : Nat
  completion_tokens : Nat
  total_tokens : Nat
deriving Repr, DecidableEq

/-- `RequestManager.process_request` (src/request_manager.py:34-78). It
creates the queue first ("to ensure it exists before sending"), sends the
frame (the boolean result of `send` is ignored), and waits. On a response
with `code == 200` it returns the completion whose message content is
`response.get("response", "")` and whose completion and total token counts
are `response.get("tokens_burned", 0)`. On any exception from
`wait_for_response`, and on the explicit `HTTPException(500, ...)` raise of
the `else` branch, control reaches the method's `except Exception` handler,
which calls `self.cleanup_request(request_id, background_tasks)`; the name
`background_tasks` is not bound in this scope (not a parameter, local, or
module-level name of src/request_manager.py), so evaluating it raises
`NameError`, which propagates instead of the original exception. -/
def process_request (s : MgrState) (request_id request_model : String)
    (now : Nat) (raceOutcome : Option InboundData) :
    MgrState × Except PyError ChatCompletion :=
  let s1 := create_queue s request_id
  let (s2, waited) := wait_for_response s1 request_id raceOutcome
  match waited with
  | .success response =>
      if response.code == some 200 then
        (s2, .ok
          { id := request_id
            created := now
            model := request_model
            content := response.response.getD emptyS
            prompt_tokens := 0
            completion_tokens := response.tokens_burned.getD 0
            total_tokens := response.tokens_burned.getD 0 })
      else (s2, .error (.nameError backgroundTasksName))
  | .err _ => (s2, .error (.nameError backgroundTasksName))

/-- `RequestManager.handle_request` (src/request_manager.py:79-86):
`try: return await self.process_request(...) finally:
self.cleanup_request(request_id, background_tasks)`. The `finally` clause
always runs and evaluates the unbound name `background_tasks`, raising
`NameError`; an exception raised in a `finally` replaces whatever the `try`
block produced, so every call — successful or not — raises `NameError` and
the background cleanup is never scheduled. (Moreover `main.py:210` calls
`handle_request(request_id, completion_request, background_tasks)` with
three arguments while the method accepts two, a `TypeError` at the call
site.) -/
def handle_request (s : MgrState) (request_id request_model : String)
    (now : Nat) (raceOutcome : Option InboundData) :
    MgrState × Except PyError ChatCompletion :=
  let (s2, _) := process_request s request_id request_model now raceOutcome
  (s2, .error (.nameError backgroundTasksName))

/-!
`StreamManager.generate_stream` (src/stream_manager.py:70-113): an async
generator that repeatedly awaits `asyncio.wait_for(queue.get(), timeout=30)`
and yields SSE strings. We embed the generator as a function from the finite
schedule of pull outcomes to the list of values it yields.
-/

/-- Outcome of one `asyncio.wait_for(queue.get(), timeout=30)` pull. -/
inductive PullOutcome
  | msg (d : InboundData)
  | idleTimeout
deriving Repr, DecidableEq

/-- One value yielded by `generate_stream`: either the SSE chunk frame
`data: {json.dumps(chunk)}\n\n` — identified by the fields that vary:
request id, model, creation time, and `delta.content` — or a literal
string (`data: [DONE]\n\n` / `data: [TIMEOUT]\n\n`). -/
inductive StreamYield
  | chunkEvent (request_id model : String) (created : Nat) (content : String)
  | lit (s : String)
deriving Repr, DecidableEq

/-- The literal terminal marker yielded on a truthy `isStreamEnd`. -/
def doneMarker : String := "data: [DONE]\n\n"

/-- The literal terminal marker yielded on an idle timeout. -/
def timeoutMarker : String := "data: [TIMEOUT]\n\n"

/-- Body of the `while True` loop of `generate_stream`
(src/stream_manager.py:80-107), as a function of the pull schedule. A pull
that times out yields the `[TIMEOUT]` literal and breaks. A delivered dict
with `"isStreamEnd" in data and data["isStreamEnd"]` truthy yields the
`[DONE]` literal and breaks. Any other delivered dict yields one chunk event
whose `delta.content` is `data.get("chunk", "")` and loops. An exhausted
schedule means the generator is still awaiting its next pull: nothing more
is yielded here. -/
def generate_stream (request_id model : String) (created : Nat) :
    List PullOutcome → List StreamYield
  | [] => []
  | .idleTimeout :: _ => [.lit timeoutMarker]
  | .msg d :: rest =>
      if d.isStreamEnd.getD false then [.lit doneMarker]
      else
        .chunkEvent request_id model created (d.chunk.getD emptyS) ::
          generate_stream request_id model created rest

/-!
`AuthenticationManager.authenticate_wallet` (src/authentication_manager.py:
15-50). It sends the auth frame, then registers a listener for the frame's
request id, then awaits the queue with a 30s timeout; the `finally`
unregisters the listener; the outer `except Exception` returns `False`.
-/

/-- How the environment resolves one `authenticate_wallet` call: `send`
raised before the listener was registered; a message was delivered by the
queue within the timeout (`none` models a `None` pushed into the queue,
which is falsy); or `asyncio.wait_for` raised `TimeoutError`. -/
inductive AuthRace
  | sendRaised
  | delivered (m : Option InboundData)
  | timedOut
deriving Repr, DecidableEq

/-- `AuthenticationManager.authenticate_wallet`
(src/authentication_manager.py:15-50). Returns the updated
`WebSocketManager` state, the updated `self.authenticated_addresses` list,
and the boolean result; it never lets an exception escape (the outer
`except` logs and returns `False`). On the delivery and timeout paths the
`finally` always unregisters the listener. A truthy delivered response with
`response.get("code") == 200` appends the wallet address and returns `True`;
any other delivery, a timeout, or an internal exception returns `False`. -/
def authenticate_wallet (ws : WSState) (addrs : List String)
    (wallet request_id : String) (race : AuthRace) :
    WSState × List String × Bool :=
  match race with
  | .sendRaised => (ws, addrs, false)
  | .delivered m =>
      let (ws1, _) := register_listener ws request_id
      match m with
      | some response =>
          if response.code == some 200 then
            (unregister_listener ws1 request_id, addrs ++ [wallet], true)
          else (unregister_listener ws1 request_id, addrs, false)
      | none => (unregister_listener ws1 request_id, addrs, false)
  | .timedOut =>
      let (ws1, _) := register_listener ws request_id
      (unregister_listener ws1 request_id, addrs, false)

/-!
Helper lemmas about association lists (Python dicts have unique keys; the
reachable registry states keep their key lists duplicate-free).
-/

/-- Erasing a key from a key-duplicate-free association list removes it from
the view of `lookup`. -/
theorem lookup_eraseP_self {α β : Type} [BEq α] [LawfulBEq α]
    (l : List (α × β)) (k : α) (h : (l.map Prod.fst).Nodup) :
    (l.eraseP (fun p => p.1 == k)).lookup k = none := by
  induction l with
  | nil => simp
  | cons a t ih =>
      obtain ⟨x, v⟩ := a
      rw [List.map_cons, List.nodup_cons] at h
      by_cases hx : x = k
      · subst hx
        rw [List.eraseP_cons_of_pos (by simp)]
        rw [List.lookup_eq_none_iff]
        intro p hp
        have hnot := h.1
        simp only [List.mem_map] at hnot
        simp only [bne_iff_ne]
        intro heq
        exact hnot ⟨p, hp, heq.symm⟩
      · rw [List.eraseP_cons_of_neg (by simp [hx])]
        have hkx : (k == x) = false := by
          simp only [beq_eq_false_iff_ne]
          exact fun he => hx he.symm
        simp only [List.lookup_cons, hkx]
        exact ih h.2

/-- Erasing a freshly appended key from an association list that did not
contain it restores the original list. -/
theorem eraseP_append_fresh {α β : Type} [BEq α] [LawfulBEq α]
    (l : List (α × β)) (k : α) (q : β) (h : l.lookup k = none) :
    (l ++ [(k, q)]).eraseP (fun p => p.1 == k) = l := by
  rw [List.eraseP_append_right]
  · rw [List.eraseP_cons_of_pos (by simp)]
    simp
  · intro b hb
    have hb2 := List.lookup_eq_none_iff.mp h b hb
    simp only [bne_iff_ne] at hb2
    simp only [Bool.not_eq_true, beq_eq_false_iff_ne]
    exact fun he => hb2 he.symm

/-- Registering an id and then unregistering it leaves no listener entry for
that id (the starting listener dict having duplicate-free keys, as every
Python dict does). -/
theorem register_unregister_lookup (ws : WSState) (request_id : String)
    (h : (ws.listeners.map Prod.fst).Nodup) :
    ((unregister_listener (register_listener ws request_id).1
        request_id).listeners.lookup request_id) = none := by
  cases hl : ws.listeners.lookup request_id with
  | some qid =>
      simp only [register_listener, hl, unregister_listener, Option.isSome_some,
        if_pos]
      exact lookup_eraseP_self ws.listeners request_id h
  | none =>
      simp only [register_listener, hl]
      have hmem : ((ws.listeners ++ [(request_id, ws.nextQ)]).lookup
          request_id) = some ws.nextQ := by
        rw [List.lookup_append, hl]
        simp
      simp only [unregister_listener, hmem, Option.isSome_some, if_pos]
      rw [eraseP_append_fresh ws.listeners request_id ws.nextQ hl]
      exact hl

/-!
Claim theorems.
-/

/-- Named concrete strings used by the scenario theorems and witnesses. -/
def r1S : String := "r1"

/-- Concrete correlation id for the stream scenario. -/
def r2S : String := "r2"

/-- Concrete correlation id used for the wallet-authentication request. -/
def a1S : String := "auth-1"

/-- Concrete wallet address. -/
def walletS : String := "0xabc"

/-- Concrete model name. -/
def gptS : String := "gpt-4o"

/-- Concrete unknown correlation id (registered nowhere). -/
def orphS : String := "ghost"

/-- A decoded frame with no fields at all (after `json.loads` of `{}`). -/
def blankMsg : InboundData := {}

/-- The string "hi" of the unary scenario. -/
def hiS : String := "hi"

/-- The inbound frame of the unary scenario:
`{requestId:"r1", code:200, response:"hi", tokens_burned:3}`. -/
def frameHi : InboundData :=
  { requestId := some r1S, code := some 200, response := some hiS,
    tokens_burned := some 3 }

/-- C1: the claim says every logical request (unary completion, stream
completion, wallet authentication) creates its registry entry before the
corresponding outbound frame is sent, never after. The unary and stream
paths do register before sending, but `authenticate_wallet`
(src/authentication_manager.py:15-34) awaits `ws_manager.send(...)` first
and only then calls `register_listener`, so on the wallet-authentication
path the frame is sent before the registry entry exists — an inbound
response can race ahead of its registration and be dropped. -/
theorem C1_register_before_send_order :
    registerBeforeSend (process_request_events r1S) r1S = true
  ∧ registerBeforeSend (process_stream_events r2S) r2S = true
  ∧ registerBeforeSend (authenticate_wallet_events a1S) a1S = false := by
  decide

/-- C7: registering the same correlation id twice returns the same channel
and leaves the registry unchanged (idempotent registration), and
unregistering an absent id is a no-op that stays a no-op when repeated. -/
theorem C7_registration_idempotent (s : WSState) (request_id : String) :
    (register_listener (register_listener s request_id).1 request_id
        = register_listener s request_id)
  ∧ (s.listeners.lookup request_id = none →
      unregister_listener s request_id = s
      ∧ unregister_listener (unregister_listener s request_id) request_id = s) := by
  constructor
  · cases hl : s.listeners.lookup request_id with
    | some qid => simp [register_listener, hl]
    | none =>
        simp only [register_listener, hl]
        have : ((s.listeners ++ [(request_id, s.nextQ)]).lookup request_id)
            = some s.nextQ := by
          rw [List.lookup_append, hl]
          simp
        simp [this]
  · intro h
    have h1 : unregister_listener s request_id = s := by
      simp [unregister_listener, h]
    exact ⟨h1, by rw [h1, h1]⟩

/-- C7 witness: concrete instance at the fresh registry and id "r1". -/
theorem C7_witness :
    (register_listener (register_listener emptyWS r1S).1 r1S
        = register_listener emptyWS r1S)
  ∧ (unregister_listener emptyWS r1S = emptyWS
      ∧ unregister_listener (unregister_listener emptyWS r1S) r1S = emptyWS) :=
  ⟨(C7_registration_idempotent emptyWS r1S).1,
   (C7_registration_idempotent emptyWS r1S).2 rfl⟩

/-- C8: an undecodable frame, a frame without a truthy correlation id, and a
frame whose correlation id has no registered consumer (neither in
`listeners` nor in `stream_queues`) are each logged and dropped: the router
returns normally (it cannot crash the receive loop) with the registry state
completely unchanged — in particular no entry is created for the unknown
id. -/
theorem C8_router_drops (s : WSState) (dataBad dataOrphan : InboundData)
    (rid : String)
    (h1 : falsyId dataBad.requestId = true)
    (h2 : dataOrphan.requestId = some rid)
    (h3 : falsyId dataOrphan.requestId = false)
    (h4 : s.listeners.lookup rid = none)
    (h5 : s.stream_queues.lookup rid = none) :
    route_message s none = (s, .droppedBadJson)
  ∧ route_message s (some dataBad) = (s, .droppedNoRequestId)
  ∧ route_message s (some dataOrphan) = (s, .droppedNoQueue) := by
  refine ⟨rfl, by simp [route_message, h1], ?_⟩
  have h3b : falsyId (some rid) = false := h2 ▸ h3
  simp [route_message, h2, h3b, h4, h5]

/-- C8 witness: the fresh registry, the empty JSON object as the id-less
frame, and a frame whose id "ghost" is registered nowhere. -/
theorem C8_witness :
    route_message emptyWS none = (emptyWS, .droppedBadJson)
  ∧ route_message emptyWS (some blankMsg) = (emptyWS, .droppedNoRequestId)
  ∧ route_message emptyWS (some { requestId := some orphS })
      = (emptyWS, .droppedNoQueue) :=
  C8_router_drops emptyWS blankMsg { requestId := some orphS } orphS
    rfl rfl rfl rfl rfl

/-- C2 counterexample: the claim says that on an unexpected disconnection
the receive loop enters the reconnect policy without terminating, and never
stops before the retry budget is exhausted. Starting connected with retry
counter 0, one connection-closed read makes the loop terminate at once:
the `ConnectionClosed` handler awaits `close()`, which sets
`self.running = False` (src/websocket_manager.py:101-112), so the next
`while self.running` test exits the loop — even though the environment
would have let every later `connect()` and `recv()` succeed, and though the
counter 0 is far below `max_retries = 5`. -/
theorem C2_counterexample :
    listenRun max_retriesV ⟨true, true, 0⟩
        [⟨true, .connClosed⟩, ⟨true, .gotMessage⟩, ⟨true, .gotMessage⟩]
      = ⟨false, false, 0⟩
  ∧ 0 < max_retriesV := by
  exact ⟨rfl, by decide⟩

/-- C2 amended: what `_listen` actually does. (a) A connection-closed or
connection-error read runs `close()`, which clears `running` and the
connection, and the loop then exits; (b) once `running` is false no further
iteration runs; (c) a failed `connect()` attempt (entered only when there is
no connection) sleeps the fixed `reconnect_delay` and continues with the
retry counter unchanged — connect failures are retried indefinitely and
never counted; (d) a successfully routed inbound frame resets the counter
to 0; (e) a generic processing error increments the counter, breaking out of
the loop exactly when it has reached `max_retries`. -/
theorem C2_amended (max_retries : Nat) (s : ListenState) (e : EnvStep) :
    (s.hasConn = true → e.recv = .connClosed →
        listenIter max_retries s e
          = ({ s with running := false, hasConn := false }, .continued))
  ∧ (∀ (es : List EnvStep) (s0 : ListenState), s0.running = false →
        listenRun max_retries s0 es = { s0 with running := false })
  ∧ (s.hasConn = false → e.connectOk = false →
        listenIter max_retries s e = (s, .continued))
  ∧ (s.hasConn = true → e.recv = .gotMessage →
        listenIter max_retries s e = ({ s with current_retry := 0 }, .continued))
  ∧ (s.hasConn = true → e.recv = .otherError →
        listenIter max_retries s e
          = ({ s with current_retry := s.current_retry + 1 },
             if max_retries ≤ s.current_retry + 1 then .broke
             else .continued)) := by
  refine ⟨?_, ?_, ?_, ?_, ?_⟩
  · intro hc hr
    simp [listenIter, hc, hr, recvStep]
  · intro es s0 h0
    cases es with
    | nil =>
        cases s0
        simp only at h0
        simp [listenRun, h0]
    | cons e2 es2 =>
        simp [listenRun, h0]
  · intro hc hk
    simp [listenIter, hc, hk]
  · intro hc hr
    simp [listenIter, hc, hr, recvStep]
  · intro hc hr
    simp only [listenIter, hc, if_true, hr, recvStep]
    split <;> rfl

/-- C2 witness: each conjunct of the amended behaviour evaluated at a
concrete state and environment step. -/
theorem C2_amended_witness :
    listenIter 5 ⟨true, true, 0⟩ ⟨true, .connClosed⟩
      = (⟨false, false, 0⟩, .continued)
  ∧ listenRun 5 ⟨false, false, 0⟩ [⟨true, .gotMessage⟩] = ⟨false, false, 0⟩
  ∧ listenIter 5 ⟨true, false, 7⟩ ⟨false, .gotMessage⟩
      = (⟨true, false, 7⟩, .continued)
  ∧ listenIter 5 ⟨true, true, 3⟩ ⟨true, .gotMessage⟩
      = (⟨true, true, 0⟩, .continued)
  ∧ listenIter 5 ⟨true, true, 4⟩ ⟨true, .otherError⟩
      = (⟨true, true, 5⟩, .broke) :=
  ⟨(C2_amended 5 ⟨true, true, 0⟩ ⟨true, .connClosed⟩).1 rfl rfl,
   (C2_amended 5 ⟨true, true, 0⟩ ⟨true, .connClosed⟩).2.1
     [⟨true, .gotMessage⟩] ⟨false, false, 0⟩ rfl,
   (C2_amended 5 ⟨true, false, 7⟩ ⟨false, .gotMessage⟩).2.2.1 rfl rfl,
   (C2_amended 5 ⟨true, true, 3⟩ ⟨true, .gotMessage⟩).2.2.2.1 rfl rfl,
   (C2_amended 5 ⟨true, true, 4⟩ ⟨true, .otherError⟩).2.2.2.2 rfl rfl⟩

/-- C4 counterexample: the claim says every delivery channel created by
registration is a bounded FIFO. The channel `register_listener` creates is
`asyncio.Queue()` with the default `maxsize = 0`, which asyncio defines as
unbounded: `full()` is false and `put_nowait` succeeds no matter how many
items the queue already holds — here even with 1000 undelivered items. -/
theorem C4_counterexample :
    ((register_listener emptyWS r1S).1.queuesHeap.lookup
        (register_listener emptyWS r1S).2 = some { maxsize := 0, items := [] })
  ∧ Queue.isFull { maxsize := 0, items := List.replicate 1000 blankMsg } = false
  ∧ (Queue.put_nowait { maxsize := 0, items := List.replicate 1000 blankMsg }
        blankMsg).isSome = true := by
  exact ⟨rfl, rfl, rfl⟩

/-- C4 amended: every delivery channel created by registration is an
unbounded FIFO (`asyncio.Queue()` with `maxsize = 0`): the freshly created
channel is empty with `maxsize` 0, and a non-blocking put on a `maxsize`-0
channel always succeeds, appending at the back — so the drop-on-full branch
can never fire for such a channel. The router itself does implement the
claimed overflow policy without blocking: when the looked-up channel is
full, `_route_message` catches `QueueFull`, records an error and drops the
frame, leaving the registry untouched. -/
theorem C4_channels_unbounded (s sFull : WSState) (request_id rid : String)
    (items : List InboundData) (m data : InboundData) (qid : Nat) (q : Queue)
    (habs : s.listeners.lookup request_id = none)
    (hheap : s.queuesHeap.lookup s.nextQ = none)
    (hid : data.requestId = some rid)
    (hfalsy : falsyId data.requestId = false)
    (hl : sFull.listeners.lookup rid = some qid)
    (hq : sFull.queuesHeap.lookup qid = some q)
    (hfull : q.isFull = true) :
    ((register_listener s request_id).1.queuesHeap.lookup
        (register_listener s request_id).2 = some { maxsize := 0, items := [] })
  ∧ (Queue.put_nowait { maxsize := 0, items := items } m
        = some { maxsize := 0, items := items ++ [m] })
  ∧ route_message sFull (some data) = (sFull, .droppedQueueFull) := by
  refine ⟨?_, rfl, ?_⟩
  · simp only [register_listener, habs]
    rw [List.lookup_append, hheap]
    simp
  · have hfb : falsyId (some rid) = false := hid ▸ hfalsy
    simp [route_message, hid, hfb, hl, hq, Queue.put_nowait, hfull]

/-- C4 witness: the fresh registry and id "r1" for the registration part; a
hand-built state holding a bounded, full channel for the overflow part. -/
theorem C4_witness :
    ((register_listener emptyWS r1S).1.queuesHeap.lookup
        (register_listener emptyWS r1S).2 = some { maxsize := 0, items := [] })
  ∧ (Queue.put_nowait { maxsize := 0, items := [blankMsg] } blankMsg
        = some { maxsize := 0, items := [blankMsg] ++ [blankMsg] })
  ∧ route_message
        ⟨[(orphS, 9)], [], [(9, { maxsize := 1, items := [blankMsg] })], 10⟩
        (some { requestId := some orphS })
      = (⟨[(orphS, 9)], [], [(9, { maxsize := 1, items := [blankMsg] })], 10⟩,
         .droppedQueueFull) :=
  C4_channels_unbounded emptyWS
    ⟨[(orphS, 9)], [], [(9, { maxsize := 1, items := [blankMsg] })], 10⟩
    r1S orphS [blankMsg] blankMsg { requestId := some orphS } 9
    { maxsize := 1, items := [blankMsg] }
    rfl rfl rfl rfl rfl rfl rfl

/-- C3: evaluation of the unary timeout path at the failing input: a
registered unary request "r1" whose wait times out. The wait raises
`HTTPException(408, ...)` once and the `finally` deletes "r1" from
`BaseManager.queues` once — but `wait_for_response` never calls
`ws_manager.unregister_listener`, so the delivery-queue registry
`WebSocketManager.listeners` still contains "r1" afterwards; and
`handle_request`, whose `finally` was meant to schedule that unregistration,
raises `NameError` on the unbound name `background_tasks` instead,
replacing the 408. -/
theorem C3_timeout_cleanup_evaluation :
    (wait_for_response (create_queue emptyMgr r1S) r1S none).2
        = .err (.http 408 (String.append needle408 r1S))
  ∧ (wait_for_response (create_queue emptyMgr r1S) r1S none).1.queues.lookup r1S
        = none
  ∧ (wait_for_response (create_queue emptyMgr r1S) r1S
        none).1.ws.listeners.lookup r1S = some 0
  ∧ (handle_request emptyMgr r1S gptS 0 none).2
        = .error (.nameError backgroundTasksName) := by
  exact ⟨rfl, rfl, rfl, rfl⟩

/-- C5: a registered unary request "r1" whose channel is delivered
`{requestId:"r1", code:200, response:"hi", tokens_burned:3}` produces a
completion whose message content is "hi" and whose completion (and total)
token usage is 3. -/
theorem C5_unary_completion (request_model : String) (now : Nat) :
    (process_request emptyMgr r1S request_model now (some frameHi)).2
      = .ok { id := r1S, created := now, model := request_model,
              content := hiS, prompt_tokens := 0, completion_tokens := 3,
              total_tokens := 3 } := rfl

/-- C6: a stream whose pulls deliver two chunk-bearing messages and then a
truthy stream-end sentinel yields exactly two chunk events carrying the
chunk texts in order, followed by the one terminal literal
`data: [DONE]\n\n` — and nothing after it, whatever further pulls (`rest`)
would have produced. -/
theorem C6_stream_scenario (request_id model : String) (created : Nat)
    (t1 t2 : String) (c1 c2 dEnd : InboundData) (rest : List PullOutcome)
    (h1e : c1.isStreamEnd.getD false = false) (h1c : c1.chunk = some t1)
    (h2e : c2.isStreamEnd.getD false = false) (h2c : c2.chunk = some t2)
    (h3 : dEnd.isStreamEnd.getD false = true) :
    generate_stream request_id model created
        (.msg c1 :: .msg c2 :: .msg dEnd :: rest)
      = [.chunkEvent request_id model created t1,
         .chunkEvent request_id model created t2,
         .lit doneMarker] := by
  simp [generate_stream, h1e, h2e, h3, h1c, h2c]

/-- The chunk "Hel" of the stream scenario. -/
def helS : String := "Hel"

/-- The chunk "lo" of the stream scenario. -/
def loS : String := "lo"

/-- Stream-scenario frame `{requestId:"r2", chunk:"Hel"}`. -/
def chunkC1 : InboundData := { requestId := some r2S, chunk := some helS }

/-- Stream-scenario frame `{requestId:"r2", chunk:"lo"}`. -/
def chunkC2 : InboundData := { requestId := some r2S, chunk := some loS }

/-- Stream-scenario sentinel `{requestId:"r2", isStreamEnd:true}`. -/
def endFrame : InboundData :=
  { requestId := some r2S, isStreamEnd := some true }

/-- C6 witness: the spec scenario, chunks "Hel" and "lo" then the sentinel. -/
theorem C6_witness :
    generate_stream r2S gptS 0 [.msg chunkC1, .msg chunkC2, .msg endFrame]
      = [.chunkEvent r2S gptS 0 helS, .chunkEvent r2S gptS 0 loS,
         .lit doneMarker] :=
  C6_stream_scenario r2S gptS 0 helS loS chunkC1 chunkC2 endFrame []
    rfl rfl rfl rfl rfl

/-- C9: a delivered message without a truthy `isStreamEnd` is emitted as one
chunk event whose content defaults to the empty string when the message has
no `chunk` key, and the stream continues — so an upstream error frame
(carrying `code` and `message` but no `chunk`) surfaces as an empty-content
chunk event, not as an error or a terminal marker. -/
theorem C9_chunkless_default (request_id model : String) (created : Nat)
    (d : InboundData) (rest : List PullOutcome)
    (hEnd : d.isStreamEnd.getD false = false)
    (hChunk : d.chunk = none) :
    generate_stream request_id model created (.msg d :: rest)
      = .chunkEvent request_id model created emptyS
          :: generate_stream request_id model created rest := by
  simp [generate_stream, hEnd, hChunk, emptyS]

/-- The message text of the upstream error frame. -/
def boomS : String := "upstream failure"

/-- An upstream error frame `{requestId:"r1", code:500, message:"..."}`:
no `chunk`, no `isStreamEnd`. -/
def errFrame : InboundData :=
  { requestId := some r1S, code := some 500, message := some boomS }

/-- C9 witness: the upstream error frame becomes one empty-content chunk
event. -/
theorem C9_witness :
    generate_stream r1S gptS 0 [.msg errFrame]
      = [.chunkEvent r1S gptS 0 emptyS] := by
  rw [C9_chunkless_default r1S gptS 0 errFrame [] rfl rfl]
  rfl

/-- C10: `authenticate_wallet` is total over its outcomes: it returns `True`
exactly when a truthy delivered response has code 200 (also appending the
wallet address to the authenticated list); it returns `False` — never
raising to its caller — on a falsy or non-200 delivery, on timeout, and on
an internal exception raised by `send`; and on every delivery or timeout
exit path the `finally` has unregistered the correlation-id listener. -/
theorem C10_auth_total (ws : WSState) (addrs : List String)
    (wallet request_id : String) (race : AuthRace)
    (h : (ws.listeners.map Prod.fst).Nodup) :
    ((authenticate_wallet ws addrs wallet request_id race).2.2 = true
        ↔ ∃ m, race = .delivered (some m) ∧ m.code = some 200)
  ∧ ((authenticate_wallet ws addrs wallet request_id race).2.2 = true →
        (authenticate_wallet ws addrs wallet request_id race).2.1
          = addrs ++ [wallet])
  ∧ (race ≠ .sendRaised →
        (authenticate_wallet ws addrs wallet request_id
            race).1.listeners.lookup request_id = none)
  ∧ (race = .sendRaised →
        authenticate_wallet ws addrs wallet request_id race
          = (ws, addrs, false)) := by
  have key := register_unregister_lookup ws request_id h
  cases race with
  | sendRaised =>
      refine ⟨by simp [authenticate_wallet], by simp [authenticate_wallet],
        fun hne => absurd rfl hne, fun _ => rfl⟩
  | delivered m =>
      cases m with
      | none =>
          refine ⟨by simp [authenticate_wallet], by simp [authenticate_wallet],
            fun _ => ?_, fun hcon => nomatch hcon⟩
          simp only [authenticate_wallet]
          exact key
      | some response =>
          by_cases hc : response.code = some 200
          · have hcb : (response.code == some 200) = true := by simp [hc]
            refine ⟨?_, ?_, fun _ => ?_, fun hcon => nomatch hcon⟩
            · simp [authenticate_wallet, hcb, hc]
            · intro _
              simp [authenticate_wallet, hcb]
            · simp only [authenticate_wallet, hcb, if_pos]
              exact key
          · have hcb : (response.code == some 200) = false := by
              simp [hc]
            refine ⟨?_, ?_, fun _ => ?_, fun hcon => nomatch hcon⟩
            · simp [authenticate_wallet, hcb, hc]
            · simp [authenticate_wallet, hcb]
            · simp only [authenticate_wallet, hcb, if_neg, Bool.false_eq_true]
              exact key
  | timedOut =>
      refine ⟨by simp [authenticate_wallet], by simp [authenticate_wallet],
        fun _ => ?_, fun hcon => nomatch hcon⟩
      simp only [authenticate_wallet]
      exact key

/-- A successful wallet-auth response `{requestId:"auth-1", code:200}`. -/
def okFrame : InboundData := { requestId := some a1S, code := some 200 }

/-- C10 witness: the fresh registry, empty authenticated list, wallet
"0xabc", and a delivered 200 response. -/
theorem C10_witness :
    ((authenticate_wallet emptyWS [] walletS a1S
          (.delivered (some okFrame))).2.2 = true
        ↔ ∃ m, AuthRace.delivered (some okFrame)
            = .delivered (some m) ∧ m.code = some 200)
  ∧ ((authenticate_wallet emptyWS [] walletS a1S
          (.delivered (some okFrame))).2.2 = true →
        (authenticate_wallet emptyWS [] walletS a1S
            (.delivered (some okFrame))).2.1 = [] ++ [walletS])
  ∧ (AuthRace.delivered (some okFrame) ≠ .sendRaised →
        (authenticate_wallet emptyWS [] walletS a1S
            (.delivered (some okFrame))).1.listeners.lookup a1S = none)
  ∧ (AuthRace.delivered (some okFrame) = .sendRaised →
        authenticate_wallet emptyWS [] walletS a1S
            (.delivered (some okFrame)) = (emptyWS, [], false)) :=
  C10_auth_total emptyWS [] walletS a1S (.delivered (some okFrame))
    (by simp [emptyWS])

end HuskyAI
